import Mathlib

/-!
Shallow embedding of the authentication / session / password-reset core of the
`alsafwan-todo-app` repository (Go).  Timestamps are modelled as `Int` seconds;
`time.Now()` becomes an explicit `now` argument.  Randomness (token generation,
`crypto/rand` draws) becomes explicit oracle arguments.  bcrypt hashing is
modelled as an injective tagging function, so that password verification
succeeds exactly on the plaintext that produced the stored digest.
The database (gorm over a relational store) is modelled as explicit lists of
rows; `Save` by primary key replaces the matching row, `Create` appends,
`Delete where` filters, and `First where` is `List.find?`.
-/

namespace Auth

/-- Error kinds of the subsystem (the spec's error taxonomy; each Go branch
returns a distinct `errors.New`, abstracted here by kind). -/
inductive AuthError where
  | invalidCredentials
  | passwordExpired
  | invalidSession
  | invalidOrExpiredSession
  | userDisabled
  | weakPassword
  | invalidOrExpiredToken
  | notFound
deriving DecidableEq, Repr

/-- `UserRole` from `models`: `RoleAdmin = 0`, `RoleManager = 1`,
`RoleSalesperson = 2`. -/
inductive UserRole where
  | admin
  | manager
  | salesperson
deriving DecidableEq, Repr

/-- The `User` row (fields relevant to the auth core). -/
structure User where
  id : Nat
  email : String
  name : String
  passwordDigest : String
  role : UserRole
  enabled : Bool
  lastSignInAt : Option Int
  currentSignInAt : Option Int
  signInCount : Nat
  passwordResetAt : Option Int
  passwordExpiresAt : Option Int
deriving DecidableEq, Repr

/-- The `Session` row. -/
structure Session where
  id : Nat
  userId : Nat
  token : String
  ipAddress : String
  userAgent : String
  expiresAt : Int
deriving DecidableEq, Repr

/-- The `UserActivity` row (audit record); the JSON metadata payload is glue
and is not modelled, the user reference and activity type are. -/
structure UserActivity where
  userId : Option Nat
  activityType : String
  ipAddress : String
  userAgent : String
  performedAt : Int
deriving DecidableEq, Repr

/-- `ResetType` from `models`. -/
inductive ResetType where
  | manual
  | automaticExpiry
  | automaticInactivity
deriving DecidableEq, Repr

/-- The `PasswordResetEvent` row. -/
structure PasswordResetEvent where
  id : Nat
  userId : Nat
  adminId : Option Nat
  reason : String
  ipAddress : String
  userAgent : String
  success : Bool
  resetType : ResetType
  token : Option String
  expiresAt : Option Int
deriving DecidableEq, Repr

/-- The backing relational store: one list of rows per entity. -/
structure DB where
  users : List User
  sessions : List Session
  activities : List UserActivity
  resetEvents : List PasswordResetEvent
deriving DecidableEq, Repr

/-- 30 minutes, in seconds (`30 * time.Minute`). -/
def thirtyMinutes : Int := 1800

/-- 30 days, in seconds (`30 * 24 * time.Hour`). -/
def thirtyDays : Int := 2592000

/-- Model of `bcrypt.GenerateFromPassword`: an injective one-way tag, so that
`CompareHashAndPassword` (modelled as equality with the regenerated tag)
succeeds exactly on the original plaintext. -/
def bcryptGenerateFromPassword (password : String) : String :=
  "$2a$10$" ++ password

/-- Go `strings.TrimSpace`, modelled on the character list: drop whitespace
from both ends. -/
def trimSpaceChars (l : List Char) : List Char :=
  ((l.dropWhile Char.isWhitespace).reverse.dropWhile Char.isWhitespace).reverse

/-- `normalizeEmail` from `auth_service.go` / `models`:
`strings.ToLower(strings.TrimSpace(email))`, modelled character-wise. -/
def normalizeEmail (email : String) : String :=
  String.mk ((trimSpaceChars email.data).map Char.toLower)

/-- `User.SetPassword`: hash the plaintext, store the digest, stamp
`PasswordResetAt = now` and `PasswordExpiresAt = now + 30 days`.  (The Go
method fails only on entropy-source failure, which is not modelled.) -/
def User.SetPassword (u : User) (now : Int) (password : String) : User :=
  { u with passwordDigest := bcryptGenerateFromPassword password,
           passwordResetAt := some now,
           passwordExpiresAt := some (now + thirtyDays) }

/-- `User.CheckPassword`: `bcrypt.CompareHashAndPassword(digest, password) == nil`. -/
def User.CheckPassword (u : User) (password : String) : Bool :=
  u.passwordDigest == bcryptGenerateFromPassword password

/-- `User.IsPasswordExpired`: true iff `PasswordExpiresAt` is set and
`time.Now().After(*PasswordExpiresAt)`. -/
def User.IsPasswordExpired (u : User) (now : Int) : Bool :=
  match u.passwordExpiresAt with
  | none => false
  | some e => decide (e < now)

/-- `User.UpdateSignInInfo`: shift `CurrentSignInAt` into `LastSignInAt`,
stamp `CurrentSignInAt = now`, increment `SignInCount`. -/
def User.UpdateSignInInfo (u : User) (now : Int) : User :=
  { u with lastSignInAt := u.currentSignInAt,
           currentSignInAt := some now,
           signInCount := u.signInCount + 1 }

/-- `User.CanManageUser`: Admin manages everyone, Manager manages exactly
Salesperson targets, the default branch (Salesperson) manages no one. -/
def User.CanManageUser (u : User) (targetUser : User) : Bool :=
  match u.role with
  | .admin => true
  | .manager => targetUser.role == .salesperson
  | .salesperson => false

/-- `User.CanDisableUser`: no self-disable, only Salesperson targets, and
otherwise defer to `CanManageUser`. -/
def User.CanDisableUser (u : User) (targetUser : User) : Bool :=
  if u.id == targetUser.id then false
  else if targetUser.role != .salesperson then false
  else u.CanManageUser targetUser

/-- `Session.IsExpired`: `time.Now().After(ExpiresAt)`. -/
def Session.IsExpired (s : Session) (now : Int) : Bool :=
  decide (s.expiresAt < now)

/-- `Session.Extend`: `ExpiresAt = time.Now().Add(30 * time.Minute)`. -/
def Session.Extend (s : Session) (now : Int) : Session :=
  { s with expiresAt := now + thirtyMinutes }

/-- `ValidatePassword` from `models/utils.go`: fails iff the plaintext is
under 6 bytes (Go `len` is byte length). -/
def ValidatePassword (password : String) : Except AuthError Unit :=
  if password.utf8ByteSize < 6 then .error .weakPassword else .ok ()

/-- The validate-then-set sequence the repository uses wherever a caller
supplies a plaintext (`ChangePassword` and `ResetPasswordWithToken` both run
`models.ValidatePassword` and then `user.SetPassword` in this order); this is
the spec's composite `setPassword` operation. -/
def SetPasswordValidated (now : Int) (u : User) (password : String) :
    Except AuthError User :=
  match ValidatePassword password with
  | .error e => .error e
  | .ok _ => .ok (u.SetPassword now password)

/-- `First(&user, "email = ?")` with the normalized input email. -/
def findUserByEmail (db : DB) (email : String) : Option User :=
  db.users.find? (fun u => u.email == normalizeEmail email)

/-- `First(&user, id)`. -/
def findUserById (db : DB) (id : Nat) : Option User :=
  db.users.find? (fun u => u.id == id)

/-- `SessionService.GetSessionByToken`: exact token match, `none` (not an
error) when absent. -/
def GetSessionByToken (db : DB) (token : String) : Option Session :=
  db.sessions.find? (fun s => s.token == token)

/-- gorm `Save(&user)`: replace the row with the matching primary key. -/
def saveUser (db : DB) (u : User) : DB :=
  { db with users := db.users.map (fun v => if v.id == u.id then u else v) }

/-- gorm `Save(session)`: replace the row with the matching primary key. -/
def saveSession (db : DB) (s : Session) : DB :=
  { db with sessions := db.sessions.map (fun x => if x.id == s.id then s else x) }

/-- gorm `Save(&resetEvent)`: replace the row with the matching primary key. -/
def saveResetEvent (db : DB) (e : PasswordResetEvent) : DB :=
  { db with resetEvents := db.resetEvents.map (fun x => if x.id == e.id then e else x) }

/-- `SessionService.DestroySession`: `Delete where token = ?`. -/
def DestroySession (db : DB) (token : String) : DB :=
  { db with sessions := db.sessions.filter (fun s => !(s.token == token)) }

/-- `ActivityService.LogActivity`: append one audit row. -/
def logActivity (db : DB) (userId : Option Nat) (activityType ip ua : String)
    (now : Int) : DB :=
  { db with activities := db.activities ++
      [{ userId := userId, activityType := activityType, ipAddress := ip,
         userAgent := ua, performedAt := now }] }

/-- `ActivityService.LogFailedLogin`. -/
def LogFailedLogin (db : DB) (now : Int) (userId : Option Nat) (ip ua : String) : DB :=
  logActivity db userId "failed_login" ip ua now

/-- `ActivityService.LogLogin`. -/
def LogLogin (db : DB) (now : Int) (u : User) (ip ua : String) : DB :=
  logActivity db (some u.id) "login" ip ua now

/-- `ActivityService.LogLogout`. -/
def LogLogout (db : DB) (now : Int) (u : User) (ip ua : String) : DB :=
  logActivity db (some u.id) "logout" ip ua now

/-- `ActivityService.LogPasswordChange` (the reset service calls it with empty
ip / user-agent strings). -/
def LogPasswordChange (db : DB) (now : Int) (u : User) : DB :=
  logActivity db (some u.id) "password_change" "" "" now

/-- `SessionService.CreateSession`: the fresh primary key and the fresh random
token are oracle arguments (DB autoincrement and `GenerateSecureToken`). -/
def CreateSession (db : DB) (now : Int) (freshId : Nat) (freshToken : String)
    (u : User) (ip ua : String) : Session × DB :=
  let s : Session :=
    { id := freshId, userId := u.id, token := freshToken, ipAddress := ip,
      userAgent := ua, expiresAt := now + thirtyMinutes }
  (s, { db with sessions := db.sessions ++ [s] })

/-- `AuthService.Login`, translated branch by branch from `auth_service.go`:
unknown email, disabled user and failed password verification each log one
`failed_login` and return `invalidCredentials`; an expired password (checked
only after the password verifies) returns `passwordExpired` with no state
change; otherwise sign-in bookkeeping is saved, a session is created and a
`login` activity is appended. -/
def Login (db : DB) (now : Int) (freshId : Nat) (freshToken : String)
    (email password ip ua : String) :
    Except AuthError (User × Session × String) × DB :=
  match findUserByEmail db email with
  | none => (.error .invalidCredentials, LogFailedLogin db now none ip ua)
  | some user =>
    if !user.enabled then
      (.error .invalidCredentials, LogFailedLogin db now (some user.id) ip ua)
    else if !(user.CheckPassword password) then
      (.error .invalidCredentials, LogFailedLogin db now (some user.id) ip ua)
    else if user.IsPasswordExpired now then
      (.error .passwordExpired, db)
    else
      let user1 := user.UpdateSignInInfo now
      let db1 := saveUser db user1
      let sdb := CreateSession db1 now freshId freshToken user1 ip ua
      let db2 := LogLogin sdb.2 now user1 ip ua
      (.ok (user1, sdb.1, freshToken), db2)

/-- `AuthService.Logout`: resolve the session by token (no expiry check),
fail `invalidSession` when absent, otherwise load the owner, destroy the
session and log `logout`. -/
def Logout (db : DB) (now : Int) (token ip ua : String) :
    Except AuthError Unit × DB :=
  match GetSessionByToken db token with
  | none => (.error .invalidSession, db)
  | some s =>
    match findUserById db s.userId with
    | none => (.error .notFound, db)
    | some user =>
      let db1 := DestroySession db token
      let db2 := LogLogout db1 now user ip ua
      (.ok (), db2)

/-- `AuthService.GetCurrentUser`: absent or expired session fails
`invalidOrExpiredSession`; a disabled owner destroys the session and fails
`userDisabled`; success slides the session expiry forward by 30 minutes and
saves it. -/
def GetCurrentUser (db : DB) (now : Int) (token : String) :
    Except AuthError User × DB :=
  match GetSessionByToken db token with
  | none => (.error .invalidOrExpiredSession, db)
  | some s =>
    if s.IsExpired now then
      (.error .invalidOrExpiredSession, db)
    else
      match findUserById db s.userId with
      | none => (.error .notFound, db)
      | some user =>
        if !user.enabled then
          (.error .userDisabled, DestroySession db token)
        else
          (.ok user, saveSession db (s.Extend now))

/-- The reset-event lookup in `ResetPasswordWithToken`:
`Where("token = ? AND expires_at > ?", token, time.Now())` — it filters on the
token and on expiry only; the `Success` flag is not part of the query. -/
def findResetEventByToken (db : DB) (now : Int) (token : String) :
    Option PasswordResetEvent :=
  db.resetEvents.find? (fun e =>
    e.token == some token &&
    (match e.expiresAt with
     | some x => decide (now < x)
     | none => false))

/-- `PasswordResetService.ResetPasswordWithToken`: look up an unexpired event
by token, load the target user, validate and set the new password, save the
user, mark the event successful, save it, and log `password_change`. -/
def ResetPasswordWithToken (db : DB) (now : Int) (token newPassword : String) :
    Except AuthError Unit × DB :=
  match findResetEventByToken db now token with
  | none => (.error .invalidOrExpiredToken, db)
  | some ev =>
    match findUserById db ev.userId with
    | none => (.error .notFound, db)
    | some user =>
      match ValidatePassword newPassword with
      | .error e => (.error e, db)
      | .ok _ =>
        let user1 := user.SetPassword now newPassword
        let db1 := saveUser db user1
        let ev1 := { ev with success := true }
        let db2 := saveResetEvent db1 ev1
        let db3 := LogPasswordChange db2 now user1
        (.ok (), db3)

/-- `upperChars` from `GenerateStrongPassword`. -/
def upperChars : List Char := "ABCDEFGHIJKLMNOPQRSTUVWXYZ".toList

/-- `lowerChars` from `GenerateStrongPassword`. -/
def lowerChars : List Char := "abcdefghijklmnopqrstuvwxyz".toList

/-- `numberChars` from `GenerateStrongPassword`. -/
def numberChars : List Char := "0123456789".toList

/-- `specialChars` from `GenerateStrongPassword` (the two brace characters
are written as escapes). -/
def specialChars : List Char := "!@#$%^&*()_+-=[]\x7b\x7d|;:,.<>?".toList

/-- `allChars = upperChars + lowerChars + numberChars + specialChars`. -/
def allChars : List Char := upperChars ++ lowerChars ++ numberChars ++ specialChars

/-- `appendRandomChar`: one uniform draw from a charset; the oracle value `r`
is reduced modulo the charset length, matching `rand.Int(len(charset))`
(every index below the length is reachable and no other). -/
def pickChar (charset : List Char) (r : Nat) : Char :=
  charset.getD (r % charset.length) 'A'

/-- One iteration of the Fisher-Yates loop: `result[i], result[j] =
result[j], result[i]` (identity when an index is out of range, which the
source never hits). -/
def swapAt (l : List Char) (i j : Nat) : List Char :=
  match l[i]?, l[j]? with
  | some a, some b => (l.set i b).set j a
  | _, _ => l

/-- The shuffle loop `for i := len(result) - 1; i > 0; i--` with
`j = rand.Int(i + 1)`, run down from `i`. -/
def shuffleAux (s : Nat → Nat) : Nat → List Char → List Char
  | 0, l => l
  | i + 1, l => shuffleAux s i (swapAt l (i + 1) (s (i + 1) % (i + 2)))

/-- The whole cryptographic shuffle of `GenerateStrongPassword`. -/
def cryptoShuffle (s : Nat → Nat) (l : List Char) : List Char :=
  shuffleAux s (l.length - 1) l

/-- `models.GenerateStrongPassword`: one draw from each of the four classes,
four draws from the full alphabet, then the shuffle.  `r` supplies the eight
character draws, `s` the shuffle draws. -/
def GenerateStrongPassword (r s : Nat → Nat) : List Char :=
  cryptoShuffle s
    [pickChar upperChars (r 0), pickChar lowerChars (r 1),
     pickChar numberChars (r 2), pickChar specialChars (r 3),
     pickChar allChars (r 4), pickChar allChars (r 5),
     pickChar allChars (r 6), pickChar allChars (r 7)]

/-- A concrete user for witness instantiations. -/
def c3User : User :=
  { id := 7, email := "w@example.com", name := "W", passwordDigest := "",
    role := .salesperson, enabled := true, lastSignInAt := none,
    currentSignInAt := none, signInCount := 0, passwordResetAt := none,
    passwordExpiresAt := none }

/-- A concrete disabled user for the C2 witness. -/
def c2Disabled : User :=
  { id := 2, email := "b@x.com", name := "B", passwordDigest := bcryptGenerateFromPassword "secret1",
    role := .manager, enabled := false, lastSignInAt := none,
    currentSignInAt := none, signInCount := 0, passwordResetAt := none,
    passwordExpiresAt := none }

/-- A concrete enabled user for the C2 witness. -/
def c2Enabled : User :=
  { id := 3, email := "c@x.com", name := "C", passwordDigest := bcryptGenerateFromPassword "secret1",
    role := .salesperson, enabled := true, lastSignInAt := none,
    currentSignInAt := none, signInCount := 0, passwordResetAt := none,
    passwordExpiresAt := none }

/-- A concrete store for the C2 witness. -/
def c2DB : DB :=
  { users := [c2Disabled, c2Enabled], sessions := [], activities := [],
    resetEvents := [] }

/-- A concrete user with an expired password for the C9 witness. -/
def c9User : User :=
  { id := 4, email := "d@x.com", name := "D", passwordDigest := bcryptGenerateFromPassword "secret1",
    role := .salesperson, enabled := true, lastSignInAt := none,
    currentSignInAt := none, signInCount := 5, passwordResetAt := some 10,
    passwordExpiresAt := some 50 }

/-- A concrete store for the C9 witness. -/
def c9DB : DB :=
  { users := [c9User], sessions := [], activities := [], resetEvents := [] }

/-- A concrete enabled user owning a session, for the C4/C5 witnesses. -/
def sessUser : User :=
  { id := 1, email := "s@x.com", name := "S", passwordDigest := bcryptGenerateFromPassword "secret1",
    role := .salesperson, enabled := true, lastSignInAt := none,
    currentSignInAt := none, signInCount := 0, passwordResetAt := none,
    passwordExpiresAt := none }

/-- A concrete session for the C4 witness (expires at time 1000). -/
def c4Session : Session :=
  { id := 1, userId := 1, token := "tok", ipAddress := "1.2.3.4",
    userAgent := "ua", expiresAt := 1000 }

/-- A concrete store for the C4 witness. -/
def c4DB : DB :=
  { users := [sessUser], sessions := [c4Session], activities := [],
    resetEvents := [] }

/-- A concrete already-expired session for the C5 witness. -/
def c5Session : Session :=
  { id := 2, userId := 1, token := "tok5", ipAddress := "1.2.3.4",
    userAgent := "ua", expiresAt := 100 }

/-- A concrete store for the C5 witness. -/
def c5DB : DB :=
  { users := [sessUser], sessions := [c5Session], activities := [],
    resetEvents := [] }

/-- The C1 failing input's target user. -/
def c1User : User :=
  { id := 1, email := "u@x.com", name := "U", passwordDigest := bcryptGenerateFromPassword "original1",
    role := .salesperson, enabled := true, lastSignInAt := none,
    currentSignInAt := none, signInCount := 0, passwordResetAt := none,
    passwordExpiresAt := none }

/-- The C1 failing input's token-bearing reset event: unconsumed, token `tk`,
expiring at time 100. -/
def c1Event : PasswordResetEvent :=
  { id := 1, userId := 1, adminId := none, reason := "forgot", ipAddress := "1.2.3.4",
    userAgent := "ua", success := false, resetType := .manual,
    token := some "tk", expiresAt := some 100 }

/-- The C1 failing input's store. -/
def c1DB : DB :=
  { users := [c1User], sessions := [], activities := [],
    resetEvents := [c1Event] }

/-- A concrete user and event for the C10 witness. -/
def c10Event : PasswordResetEvent :=
  { id := 3, userId := 7, adminId := none, reason := "forgot", ipAddress := "1.2.3.4",
    userAgent := "ua", success := false, resetType := .manual,
    token := some "tk10", expiresAt := some 500 }

/-- A concrete store for the C10 witness. -/
def c10DB : DB :=
  { users := [c3User], sessions := [], activities := [],
    resetEvents := [c10Event] }

/-! ## Theorems -/

/-- C2: `Login` returns the same `invalidCredentials` error kind whether the
email matches no user, the matched user is disabled, or the password fails to
verify, and each of the three attempts appends exactly one `failed_login`
activity record — with no user reference exactly in the unknown-email case,
and with the matched user's id in the other two. -/
theorem login_failures_uniform
    (dbA dbB dbC : DB) (now : Int) (fid : Nat) (ftk : String)
    (emailA emailB emailC pw ip ua : String) (uB uC : User)
    (hA : findUserByEmail dbA emailA = none)
    (hB : findUserByEmail dbB emailB = some uB)
    (hBdis : uB.enabled = false)
    (hC : findUserByEmail dbC emailC = some uC)
    (hCen : uC.enabled = true)
    (hCpw : uC.CheckPassword pw = false) :
    Login dbA now fid ftk emailA pw ip ua
      = (.error .invalidCredentials,
         { dbA with activities := dbA.activities ++
             [{ userId := none, activityType := "failed_login", ipAddress := ip,
                userAgent := ua, performedAt := now }] })
    ∧ Login dbB now fid ftk emailB pw ip ua
      = (.error .invalidCredentials,
         { dbB with activities := dbB.activities ++
             [{ userId := some uB.id, activityType := "failed_login", ipAddress := ip,
                userAgent := ua, performedAt := now }] })
    ∧ Login dbC now fid ftk emailC pw ip ua
      = (.error .invalidCredentials,
         { dbC with activities := dbC.activities ++
             [{ userId := some uC.id, activityType := "failed_login", ipAddress := ip,
                userAgent := ua, performedAt := now }] }) := by
  refine ⟨?_, ?_, ?_⟩
  · simp [Login, hA, LogFailedLogin, logActivity]
  · simp [Login, hB, hBdis, LogFailedLogin, logActivity]
  · simp [Login, hC, hCen, hCpw, LogFailedLogin, logActivity]

/-- Witness for C2: a concrete store with a disabled user and an enabled
user, probed with an unknown email, the disabled user's email, and the
enabled user's email with a wrong password. -/
theorem login_failures_uniform_witness :
    (findUserByEmail c2DB "a@x.com" = none
      ∧ findUserByEmail c2DB "b@x.com" = some c2Disabled
      ∧ c2Disabled.enabled = false
      ∧ findUserByEmail c2DB "c@x.com" = some c2Enabled
      ∧ c2Enabled.enabled = true
      ∧ c2Enabled.CheckPassword "wrongpw" = false)
    ∧ Login c2DB 100 1 "tok1" "a@x.com" "wrongpw" "1.2.3.4" "ua"
      = (.error .invalidCredentials,
         { c2DB with activities := c2DB.activities ++
             [{ userId := none, activityType := "failed_login", ipAddress := "1.2.3.4",
                userAgent := "ua", performedAt := 100 }] }) :=
  ⟨⟨by decide, by decide, by decide, by decide, by decide, by decide⟩,
   (login_failures_uniform c2DB c2DB c2DB 100 1 "tok1" "a@x.com" "b@x.com"
      "c@x.com" "wrongpw" "1.2.3.4" "ua" c2Disabled c2Enabled
      (by decide) (by decide) (by decide) (by decide) (by decide) (by decide)).1⟩

/-- C9: a login where the email matches an enabled user and the password
verifies but the password is expired returns `passwordExpired` and leaves the
store completely unchanged: no session is created, the sign-in counters are
untouched, and no activity of any kind is appended. -/
theorem login_password_expired_no_state_change
    (db : DB) (now : Int) (fid : Nat) (ftk email pw ip ua : String) (u : User)
    (h1 : findUserByEmail db email = some u)
    (h2 : u.enabled = true)
    (h3 : u.CheckPassword pw = true)
    (h4 : u.IsPasswordExpired now = true) :
    Login db now fid ftk email pw ip ua = (.error .passwordExpired, db) := by
  simp [Login, h1, h2, h3, h4]

/-- Witness for C9: a concrete enabled user whose password expired at time 50,
probed at time 100 with the correct password. -/
theorem login_password_expired_witness :
    (findUserByEmail c9DB "d@x.com" = some c9User
      ∧ c9User.enabled = true
      ∧ c9User.CheckPassword "secret1" = true
      ∧ c9User.IsPasswordExpired 100 = true)
    ∧ Login c9DB 100 1 "tok1" "d@x.com" "secret1" "1.2.3.4" "ua"
      = (.error .passwordExpired, c9DB) :=
  ⟨⟨by decide, by decide, by decide, by decide⟩,
   login_password_expired_no_state_change c9DB 100 1 "tok1" "d@x.com" "secret1"
     "1.2.3.4" "ua" c9User (by decide) (by decide) (by decide) (by decide)⟩


/-- C6: `CanManageUser` returns true whenever the actor is Admin (any target),
for a Manager actor exactly when the target is a Salesperson (so
Manager-on-Manager and Manager-on-Admin are false), and false for every
Salesperson actor regardless of target. -/
theorem canManageUser_role_table (actor target : User) :
    actor.CanManageUser target
      = (actor.role == .admin || (actor.role == .manager && target.role == .salesperson)) := by
  cases hr : actor.role <;> cases ht : target.role <;>
    simp [User.CanManageUser, hr, ht]

/-- C7: `CanDisableUser` is true exactly when `CanManageUser` holds, the actor
and target ids differ, and the target's role is Salesperson; in particular a
user can never disable itself. -/
theorem canDisableUser_characterization (actor target : User) :
    (actor.CanDisableUser target
       = (actor.CanManageUser target && !(actor.id == target.id)
           && (target.role == .salesperson)))
    ∧ actor.CanDisableUser actor = false := by
  constructor
  · cases hid : (actor.id == target.id) <;> cases ht : target.role <;>
      simp [User.CanDisableUser, hid, ht]
  · simp [User.CanDisableUser]

/-- C3: the validate-then-set password sequence (`ValidatePassword` followed
by `User.SetPassword`, the order used by every caller that takes a
user-chosen plaintext) fails with `weakPassword` on plaintexts under 6 bytes,
leaving no new digest, and on plaintexts of 6 or more bytes stores the hash
and stamps `passwordResetAt = now` and `passwordExpiresAt = now + 30 days`. -/
theorem setPassword_policy (now : Int) (u : User) (pw1 pw2 : String)
    (h1 : pw1.utf8ByteSize < 6) (h2 : 6 ≤ pw2.utf8ByteSize) :
    SetPasswordValidated now u pw1 = .error .weakPassword
    ∧ SetPasswordValidated now u pw2
        = .ok { u with passwordDigest := bcryptGenerateFromPassword pw2,
                       passwordResetAt := some now,
                       passwordExpiresAt := some (now + thirtyDays) } := by
  constructor
  · simp [SetPasswordValidated, ValidatePassword, h1]
  · simp [SetPasswordValidated, ValidatePassword, Nat.not_lt.mpr h2,
      User.SetPassword]

/-- Witness for C3 at concrete inputs: `"abc"` is rejected as weak,
`"abcdef"` is stored with the 30-day expiry window. -/
theorem setPassword_policy_witness :
    ("abc".utf8ByteSize < 6 ∧ 6 ≤ "abcdef".utf8ByteSize)
    ∧ SetPasswordValidated 100 c3User "abc" = .error .weakPassword
    ∧ SetPasswordValidated 100 c3User "abcdef"
        = .ok { c3User with passwordDigest := bcryptGenerateFromPassword "abcdef",
                            passwordResetAt := some 100,
                            passwordExpiresAt := some (100 + thirtyDays) } :=
  ⟨⟨by decide, by decide⟩,
   (setPassword_policy 100 c3User "abc" "abcdef" (by decide) (by decide)).1,
   (setPassword_policy 100 c3User "abc" "abcdef" (by decide) (by decide)).2⟩

/-- Saving a row that keeps its primary key and its token leaves it the first
token match: replacing by primary key cannot unhide or hide the token. -/
theorem session_find?_map_set (l : List Session) (tk : String) (s s2 : Session)
    (hfind : l.find? (fun x => x.token == tk) = some s)
    (hid : s2.id = s.id) (htok : s2.token = s.token) :
    (l.map (fun x => if x.id == s.id then s2 else x)).find?
        (fun x => x.token == tk) = some s2 := by
  have hstk : (s.token == tk) = true := by
    have h0 := List.find?_some hfind
    simpa using h0
  have hs2tk : (s2.token == tk) = true := by rw [htok]; exact hstk
  induction l with
  | nil => simp at hfind
  | cons h t ih =>
    rw [List.map_cons]
    by_cases hp : (h.token == tk) = true
    · have hcons : List.find? (fun x => x.token == tk) (h :: t) = some h :=
        List.find?_cons_of_pos _ hp
      rw [hcons] at hfind
      have hhs : h = s := Option.some.inj hfind
      subst hhs
      rw [if_pos (beq_self_eq_true h.id)]
      exact List.find?_cons_of_pos _ hs2tk
    · have hcons : List.find? (fun x => x.token == tk) (h :: t)
          = List.find? (fun x => x.token == tk) t :=
        List.find?_cons_of_neg _ (by simpa using hp)
      rw [hcons] at hfind
      by_cases hq : (h.id == s.id) = true
      · rw [if_pos hq]
        exact List.find?_cons_of_pos _ hs2tk
      · rw [if_neg hq]
        have hcons2 : List.find? (fun x => x.token == tk)
            (h :: List.map (fun x => if (x.id == s.id) = true then s2 else x) t)
              = List.find? (fun x => x.token == tk)
                  (List.map (fun x => if (x.id == s.id) = true then s2 else x) t) :=
          List.find?_cons_of_neg _ (by simpa using hp)
        rw [hcons2]
        exact ih hfind

/-- After `Delete where token = tk`, no session with that token remains. -/
theorem session_find?_filter_ne (l : List Session) (tk : String) :
    (l.filter (fun x => !(x.token == tk))).find? (fun x => x.token == tk) = none := by
  rw [List.find?_eq_none]
  intro x hx
  have hmem := List.mem_filter.mp hx
  simpa using hmem.2

/-- `GetCurrentUser` on a present, unexpired session of an enabled owner
succeeds with that owner and saves the session extended to `now + 30min`. -/
theorem getCurrentUser_ok (db : DB) (now : Int) (token : String)
    (s : Session) (user : User)
    (hs : GetSessionByToken db token = some s)
    (hu : findUserById db s.userId = some user)
    (hen : user.enabled = true)
    (hexp : now ≤ s.expiresAt) :
    GetCurrentUser db now token = (.ok user, saveSession db (s.Extend now)) := by
  have hne : s.IsExpired now = false := by
    simp only [Session.IsExpired, decide_eq_false_iff_not]
    omega
  simp [GetCurrentUser, hs, hne, hu, hen]

/-- `GetCurrentUser` on a session whose expiry is strictly past fails with
`invalidOrExpiredSession` and changes nothing. -/
theorem getCurrentUser_expired (db : DB) (now : Int) (token : String) (s : Session)
    (hs : GetSessionByToken db token = some s)
    (hexp : s.expiresAt < now) :
    GetCurrentUser db now token = (.error .invalidOrExpiredSession, db) := by
  have hne : s.IsExpired now = true := by
    simp only [Session.IsExpired, decide_eq_true_eq]
    omega
  simp [GetCurrentUser, hs, hne]

/-- Extending and saving a session keeps it the lookup result for its token. -/
theorem getSessionByToken_save_extend (db : DB) (token : String) (s : Session) (now : Int)
    (hs : GetSessionByToken db token = some s) :
    GetSessionByToken (saveSession db (s.Extend now)) token = some (s.Extend now) :=
  session_find?_map_set db.sessions token s (s.Extend now) hs rfl rfl

/-- C4: each successful `GetCurrentUser` call slides the session's expiry to
30 minutes after the time of the call: a first call at `t1 ≤ expiresAt`
succeeds and stores expiry `t1 + 30min`; a second call at `t2 ≤ t1 + 30min`
succeeds again and stores expiry `t2 + 30min`; a call at `t3 > t1 + 30min`
with no intervening call fails with `invalidOrExpiredSession`. -/
theorem resolveUser_sliding_expiry (db : DB) (token : String) (s : Session)
    (user : User) (t1 t2 t3 : Int)
    (hs : GetSessionByToken db token = some s)
    (hu : findUserById db s.userId = some user)
    (hen : user.enabled = true)
    (h1 : t1 ≤ s.expiresAt)
    (h2 : t2 ≤ t1 + thirtyMinutes)
    (h3 : t1 + thirtyMinutes < t3) :
    (GetCurrentUser db t1 token).1 = .ok user
    ∧ GetSessionByToken (GetCurrentUser db t1 token).2 token
        = some { s with expiresAt := t1 + thirtyMinutes }
    ∧ (GetCurrentUser (GetCurrentUser db t1 token).2 t2 token).1 = .ok user
    ∧ GetSessionByToken (GetCurrentUser (GetCurrentUser db t1 token).2 t2 token).2 token
        = some { s with expiresAt := t2 + thirtyMinutes }
    ∧ (GetCurrentUser (GetCurrentUser db t1 token).2 t3 token).1
        = .error .invalidOrExpiredSession := by
  have e1 := getCurrentUser_ok db t1 token s user hs hu hen h1
  have hs1 : GetSessionByToken (saveSession db (s.Extend t1)) token = some (s.Extend t1) :=
    getSessionByToken_save_extend db token s t1 hs
  have hu1 : findUserById (saveSession db (s.Extend t1)) (s.Extend t1).userId = some user := hu
  have e2 := getCurrentUser_ok (saveSession db (s.Extend t1)) t2 token (s.Extend t1) user
    hs1 hu1 hen (by simp only [Session.Extend]; omega)
  have hs2 : GetSessionByToken
      (saveSession (saveSession db (s.Extend t1)) ((s.Extend t1).Extend t2)) token
        = some ((s.Extend t1).Extend t2) :=
    getSessionByToken_save_extend (saveSession db (s.Extend t1)) token (s.Extend t1) t2 hs1
  have e3 := getCurrentUser_expired (saveSession db (s.Extend t1)) t3 token (s.Extend t1)
    hs1 (by simp only [Session.Extend]; omega)
  refine ⟨?_, ?_, ?_, ?_, ?_⟩
  · rw [e1]
  · rw [e1]; exact hs1
  · rw [e1]; rw [e2]
  · rw [e1]; rw [e2]; exact hs2
  · rw [e1]; rw [e3]

/-- Witness for C4: session expiring at 1000, calls at 500 (succeeds,
deadline 2300), at 2300 (still within, deadline 4100), and at 2301 directly
after the first call (fails). -/
theorem resolveUser_sliding_expiry_witness :
    (GetSessionByToken c4DB "tok" = some c4Session
      ∧ findUserById c4DB c4Session.userId = some sessUser
      ∧ sessUser.enabled = true
      ∧ (500 : Int) ≤ c4Session.expiresAt)
    ∧ (GetCurrentUser c4DB 500 "tok").1 = .ok sessUser
    ∧ GetSessionByToken (GetCurrentUser c4DB 500 "tok").2 "tok"
        = some { c4Session with expiresAt := 500 + thirtyMinutes }
    ∧ (GetCurrentUser (GetCurrentUser c4DB 500 "tok").2 2300 "tok").1 = .ok sessUser
    ∧ GetSessionByToken (GetCurrentUser (GetCurrentUser c4DB 500 "tok").2 2300 "tok").2 "tok"
        = some { c4Session with expiresAt := 2300 + thirtyMinutes }
    ∧ (GetCurrentUser (GetCurrentUser c4DB 500 "tok").2 2301 "tok").1
        = .error .invalidOrExpiredSession :=
  ⟨⟨by decide, by decide, by decide, by decide⟩,
   resolveUser_sliding_expiry c4DB "tok" c4Session sessUser 500 2300 2301
     (by decide) (by decide) (by decide) (by decide) (by decide) (by decide)⟩

/-- C5: `Logout` succeeds on a present session even when its expiry is
already past; afterwards `GetCurrentUser` with that token fails with
`invalidOrExpiredSession`, and a second `Logout` with the same token fails
with `invalidSession` while leaving the store as it was. -/
theorem logout_expired_then_idempotent (db : DB) (token ip ua : String)
    (s : Session) (user : User) (now t1 t2 : Int)
    (hs : GetSessionByToken db token = some s)
    (hu : findUserById db s.userId = some user)
    (_hexp : s.expiresAt < now) :
    (Logout db now token ip ua).1 = .ok ()
    ∧ (GetCurrentUser (Logout db now token ip ua).2 t1 token).1
        = .error .invalidOrExpiredSession
    ∧ Logout (Logout db now token ip ua).2 t2 token ip ua
        = (.error .invalidSession, (Logout db now token ip ua).2) := by
  have e1 : Logout db now token ip ua
      = (.ok (), LogLogout (DestroySession db token) now user ip ua) := by
    simp [Logout, hs, hu]
  have hnone : GetSessionByToken (LogLogout (DestroySession db token) now user ip ua) token
      = none :=
    session_find?_filter_ne db.sessions token
  refine ⟨by rw [e1], ?_, ?_⟩
  · rw [e1]; simp [GetCurrentUser, hnone]
  · rw [e1]; simp [Logout, hnone]

/-- Witness for C5: the session expired at time 100; logout at time 200
succeeds, then resolve and a second logout both fail. -/
theorem logout_expired_then_idempotent_witness :
    (GetSessionByToken c5DB "tok5" = some c5Session
      ∧ findUserById c5DB c5Session.userId = some sessUser
      ∧ c5Session.expiresAt < (200 : Int))
    ∧ (Logout c5DB 200 "tok5" "1.2.3.4" "ua").1 = .ok ()
    ∧ (GetCurrentUser (Logout c5DB 200 "tok5" "1.2.3.4" "ua").2 300 "tok5").1
        = .error .invalidOrExpiredSession
    ∧ Logout (Logout c5DB 200 "tok5" "1.2.3.4" "ua").2 400 "tok5" "1.2.3.4" "ua"
        = (.error .invalidSession, (Logout c5DB 200 "tok5" "1.2.3.4" "ua").2) :=
  ⟨⟨by decide, by decide, by decide⟩,
   (logout_expired_then_idempotent c5DB "tok5" "1.2.3.4" "ua" c5Session sessUser
      200 300 400 (by decide) (by decide) (by decide)).1,
   (logout_expired_then_idempotent c5DB "tok5" "1.2.3.4" "ua" c5Session sessUser
      200 300 400 (by decide) (by decide) (by decide)).2.1,
   (logout_expired_then_idempotent c5DB "tok5" "1.2.3.4" "ua" c5Session sessUser
      200 300 400 (by decide) (by decide) (by decide)).2.2⟩

/-- C10: when `ResetPasswordWithToken` finds an unexpired matching event and
its target user but the new plaintext is under 6 bytes, it fails with
`weakPassword` and returns the store entirely unchanged — the user's digest
and expiry and the event (still unconsumed, token intact) are untouched — and
a later call on that same store with a valid password succeeds. -/
theorem reset_weak_password_no_change (db : DB) (now now2 : Int)
    (token pw pw2 : String) (ev : PasswordResetEvent) (user : User)
    (h1 : findResetEventByToken db now token = some ev)
    (h2 : findUserById db ev.userId = some user)
    (h3 : pw.utf8ByteSize < 6)
    (h4 : findResetEventByToken db now2 token = some ev)
    (h5 : 6 ≤ pw2.utf8ByteSize) :
    ResetPasswordWithToken db now token pw = (.error .weakPassword, db)
    ∧ (ResetPasswordWithToken db now2 token pw2).1 = .ok () := by
  constructor
  · simp [ResetPasswordWithToken, h1, h2, ValidatePassword, h3]
  · simp [ResetPasswordWithToken, h4, h2, ValidatePassword, Nat.not_lt.mpr h5]

/-- Witness for C10: token `tk10` (expires at 500) rejected with the weak
plaintext `"abc"` at time 10 with no state change, then redeemed with
`"abcdef"` at time 20. -/
theorem reset_weak_password_no_change_witness :
    (findResetEventByToken c10DB 10 "tk10" = some c10Event
      ∧ findUserById c10DB c10Event.userId = some c3User
      ∧ "abc".utf8ByteSize < 6
      ∧ findResetEventByToken c10DB 20 "tk10" = some c10Event
      ∧ 6 ≤ "abcdef".utf8ByteSize)
    ∧ ResetPasswordWithToken c10DB 10 "tk10" "abc" = (.error .weakPassword, c10DB)
    ∧ (ResetPasswordWithToken c10DB 20 "tk10" "abcdef").1 = .ok () :=
  ⟨⟨by decide, by decide, by decide, by decide, by decide⟩,
   (reset_weak_password_no_change c10DB 10 20 "tk10" "abc" "abcdef" c10Event c3User
      (by decide) (by decide) (by decide) (by decide) (by decide)).1,
   (reset_weak_password_no_change c10DB 10 20 "tk10" "abc" "abcdef" c10Event c3User
      (by decide) (by decide) (by decide) (by decide) (by decide)).2⟩

/-- C1 (refuting the claim as the code stands): the lookup in
`ResetPasswordWithToken` filters only on the token and on `expires_at`, never
on `Success`, and the token is not cleared on redemption — so after a first
successful reset with token `tk` at time 10, a second call with the identical
token at time 20 (still before the event's expiry 100) succeeds again instead
of failing.  The first conjunct shows the first call succeeding, the second
shows the event was marked successful in place with its token intact, and the
third shows the forbidden replay succeeding. -/
theorem reset_token_replay_succeeds :
    (ResetPasswordWithToken c1DB 10 "tk" "firstpw1").1 = .ok ()
    ∧ (ResetPasswordWithToken c1DB 10 "tk" "firstpw1").2.resetEvents
        = [{ c1Event with success := true }]
    ∧ (ResetPasswordWithToken (ResetPasswordWithToken c1DB 10 "tk" "firstpw1").2
         20 "tk" "secondpw1").1 = .ok () := by
  refine ⟨rfl, by decide, rfl⟩

/-- One Fisher-Yates swap preserves the count of every character. -/
theorem count_swapAt (l : List Char) (i j : Nat) (c : Char) :
    (swapAt l i j).count c = l.count c := by
  cases hi : l[i]? with
  | none => simp [swapAt, hi]
  | some a =>
    cases hj : l[j]? with
    | none => simp [swapAt, hi, hj]
    | some b =>
      simp only [swapAt, hi, hj]
      obtain ⟨hi', hia⟩ := List.getElem?_eq_some_iff.mp hi
      obtain ⟨hj', hja⟩ := List.getElem?_eq_some_iff.mp hj
      have hj2 : j < (l.set i b).length := by simpa using hj'
      rw [List.count_set _ _ _ _ hj2, List.count_set _ _ _ _ hi']
      have hsj : (l.set i b)[j] = b := by
        rw [List.getElem_set]
        by_cases hij : i = j
        · simp [hij]
        · simp [hij, hja]
      have hbound : (if a == c then 1 else 0) ≤ l.count c := by
        have hb := List.boole_getElem_le_count c l i hi'
        rw [hia] at hb
        exact hb
      rw [hsj, hia]
      cases hac : (a == c) <;> cases hbc : (b == c) <;>
        simp only [hac, hbc, if_true, if_false] at hbound ⊢ <;> omega

/-- The whole shuffle loop preserves the count of every character. -/
theorem count_shuffleAux (s : Nat → Nat) (n : Nat) (l : List Char) (c : Char) :
    (shuffleAux s n l).count c = l.count c := by
  induction n generalizing l with
  | zero => rfl
  | succ i ih =>
    simp only [shuffleAux]
    rw [ih, count_swapAt]

/-- One Fisher-Yates swap preserves the length. -/
theorem length_swapAt (l : List Char) (i j : Nat) :
    (swapAt l i j).length = l.length := by
  cases hi : l[i]? <;> cases hj : l[j]? <;> simp [swapAt, hi, hj]

/-- The whole shuffle loop preserves the length. -/
theorem length_shuffleAux (s : Nat → Nat) (n : Nat) (l : List Char) :
    (shuffleAux s n l).length = l.length := by
  induction n generalizing l with
  | zero => rfl
  | succ i ih =>
    simp only [shuffleAux]
    rw [ih, length_swapAt]

/-- A character is in the shuffled list exactly when it is in the input. -/
theorem mem_shuffleAux_iff (s : Nat → Nat) (n : Nat) (l : List Char) (c : Char) :
    c ∈ shuffleAux s n l ↔ c ∈ l := by
  rw [← List.count_pos_iff, ← List.count_pos_iff, count_shuffleAux]

/-- Each uniform draw lands inside its charset. -/
theorem pickChar_mem (cs : List Char) (r : Nat) (h : cs ≠ []) :
    pickChar cs r ∈ cs := by
  have hlen : 0 < cs.length := List.length_pos.mpr h
  have hlt : r % cs.length < cs.length := Nat.mod_lt _ hlen
  have he : pickChar cs r = cs[r % cs.length] := by
    simp [pickChar, List.getD_eq_getElem?_getD, List.getElem?_eq_getElem hlt]
  rw [he]
  exact List.getElem_mem hlt

/-- C8: every password produced by `GenerateStrongPassword` is exactly 8
characters long, contains at least one uppercase letter, one lowercase
letter, one digit and one symbol, and every one of its characters is drawn
from the four defined character classes. -/
theorem generateStrongPassword_strong (r s : Nat → Nat) :
    (GenerateStrongPassword r s).length = 8
    ∧ (GenerateStrongPassword r s).any (fun c => decide (c ∈ upperChars)) = true
    ∧ (GenerateStrongPassword r s).any (fun c => decide (c ∈ lowerChars)) = true
    ∧ (GenerateStrongPassword r s).any (fun c => decide (c ∈ numberChars)) = true
    ∧ (GenerateStrongPassword r s).any (fun c => decide (c ∈ specialChars)) = true
    ∧ (GenerateStrongPassword r s).all (fun c => decide (c ∈ allChars)) = true := by
  have hup : upperChars ≠ [] := by decide
  have hlo : lowerChars ≠ [] := by decide
  have hnu : numberChars ≠ [] := by decide
  have hsp : specialChars ≠ [] := by decide
  have memBase : ∀ c,
      c ∈ [pickChar upperChars (r 0), pickChar lowerChars (r 1),
           pickChar numberChars (r 2), pickChar specialChars (r 3),
           pickChar allChars (r 4), pickChar allChars (r 5),
           pickChar allChars (r 6), pickChar allChars (r 7)] →
        c ∈ GenerateStrongPassword r s := by
    intro c hc
    rw [GenerateStrongPassword, cryptoShuffle, mem_shuffleAux_iff]
    exact hc
  refine ⟨?_, ?_, ?_, ?_, ?_, ?_⟩
  · rw [GenerateStrongPassword, cryptoShuffle, length_shuffleAux]
    rfl
  · exact List.any_eq_true.mpr
      ⟨pickChar upperChars (r 0), memBase _ (by simp),
       decide_eq_true (pickChar_mem upperChars (r 0) hup)⟩
  · exact List.any_eq_true.mpr
      ⟨pickChar lowerChars (r 1), memBase _ (by simp),
       decide_eq_true (pickChar_mem lowerChars (r 1) hlo)⟩
  · exact List.any_eq_true.mpr
      ⟨pickChar numberChars (r 2), memBase _ (by simp),
       decide_eq_true (pickChar_mem numberChars (r 2) hnu)⟩
  · exact List.any_eq_true.mpr
      ⟨pickChar specialChars (r 3), memBase _ (by simp),
       decide_eq_true (pickChar_mem specialChars (r 3) hsp)⟩
  · rw [List.all_eq_true]
    intro x hx
    rw [GenerateStrongPassword, cryptoShuffle, mem_shuffleAux_iff] at hx
    have hsubUp : ∀ c ∈ upperChars, c ∈ allChars := by decide
    have hsubLo : ∀ c ∈ lowerChars, c ∈ allChars := by decide
    have hsubNu : ∀ c ∈ numberChars, c ∈ allChars := by decide
    have hsubSp : ∀ c ∈ specialChars, c ∈ allChars := by decide
    have hall : allChars ≠ [] := by decide
    simp only [List.mem_cons, List.not_mem_nil, or_false] at hx
    rcases hx with h | h | h | h | h | h | h | h <;> subst h
    · exact decide_eq_true (hsubUp _ (pickChar_mem upperChars (r 0) hup))
    · exact decide_eq_true (hsubLo _ (pickChar_mem lowerChars (r 1) hlo))
    · exact decide_eq_true (hsubNu _ (pickChar_mem numberChars (r 2) hnu))
    · exact decide_eq_true (hsubSp _ (pickChar_mem specialChars (r 3) hsp))
    · exact decide_eq_true (pickChar_mem allChars (r 4) hall)
    · exact decide_eq_true (pickChar_mem allChars (r 5) hall)
    · exact decide_eq_true (pickChar_mem allChars (r 6) hall)
    · exact decide_eq_true (pickChar_mem allChars (r 7) hall)

end Auth
